import Mathlib

/-!
Verification development for the EMBER actuator-control core:
the per-axis stepper controller (`backend/steppers.js`) and the
solenoid daemon client (`backend/imu.js`, class `Solenoids`).

The JavaScript is shallowly embedded: subprocess interaction is an
oracle `TicExec : TicCmd → Except String String` (an invocation either
rejects with an error message or resolves with its stdout text), and
each async operation becomes a pure function returning its result, the
updated per-axis state, and the list of subprocess commands it issued,
in order. Wall-clock fields (`ts : Date.now()`) are omitted from the
embedding; they carry no logic.
-/

namespace Ember

/-! ## Serialized command queue (steppers.js lines 25-29)

`const locks = { yaw: Promise.resolve(), pitch: Promise.resolve() };`
`function withLock(axis, fn) { locks[axis] = locks[axis].then(fn, fn); return locks[axis]; }`

A settled promise is either fulfilled or rejected. A queued unit of
work is modelled by its id together with the outcome it settles with
when it runs.  `p.then(fn, fn)` registers `fn` as both the fulfillment
handler and the rejection handler, so `fn` runs exactly once after `p`
settles, whichever way it settled. -/

inductive Settled where
  | fulfilled
  | rejected (e : String)
deriving DecidableEq, Repr

structure WorkUnit where
  wid : Nat
  outcome : Settled
deriving DecidableEq, Repr

/-- `prev.then(fn, fn)`: the work runs whether `prev` fulfilled or rejected;
the chain's new tail promise settles with the work's own outcome, and the
work's id is appended to the execution trace. -/
def thenBoth (prev : Settled) (w : WorkUnit) : Settled × Nat :=
  match prev with
  | .fulfilled => (w.outcome, w.wid)
  | .rejected _ => (w.outcome, w.wid)

/-- Running the per-key lock chain: each submitted unit of work is chained
onto the previous tail promise with `.then(fn, fn)` and executed only once
that promise has settled, so execution is sequential (at most one unit in
flight).  Returns the trace of work ids in the order they executed. -/
def runLockChain (lock : Settled) : List WorkUnit → List Nat
  | [] => []
  | w :: ws =>
    let s := thenBoth lock w
    s.2 :: runLockChain s.1 ws

/-! ## Status text parsing (steppers.js lines 51-66, `parseStatusText`)

The source applies four case-insensitive regexes to the free-form
`ticcmd --status --full` output:
  `/Current position:\s*(-?\d+)/i`, `/Energized:\s*(Yes|No)/i`,
  `/Safe start:\s*(Yes|No)/i`,
  `/Errors currently stopping the motor:\s*(Yes|No)/i`.
We embed each regex as: scan left to right for the first position where
the literal matches case-insensitively AND the tail pattern
(`\s*` then a signed integer, or `\s*` then `Yes|No`) completes. -/

/-- ASCII lower-casing of a character's code point, modelling the `/i` flag
on these all-ASCII patterns. -/
def lcn (c : Char) : Nat :=
  let n := c.toNat
  if 65 ≤ n ∧ n ≤ 90 then n + 32 else n

/-- Match a literal pattern case-insensitively as a prefix of `s`;
on success return the remainder of `s`. -/
def matchLitCI : List Char → List Char → Option (List Char)
  | [], s => some s
  | _ :: _, [] => none
  | p :: ps, c :: cs => if lcn p = lcn c then matchLitCI ps cs else none

/-- The characters matched by the JavaScript regex class `\s` (ASCII part
plus no-break space). -/
def isJsSpace (c : Char) : Bool :=
  c = ' ' || c = '\t' || c = '\n' || c = '\r' ||
  c.toNat = 12 || c.toNat = 11 || c.toNat = 0xA0

/-- Longest leading run of decimal digits (`\d+` is greedy). -/
def takeDigits : List Char → List Char × List Char
  | [] => ([], [])
  | c :: cs =>
    if c.isDigit then
      let r := takeDigits cs
      (c :: r.1, r.2)
    else ([], c :: cs)

/-- `parseInt(d, 10)` on a nonempty digit run. -/
def digitsToNat (ds : List Char) : Nat :=
  ds.foldl (fun a c => a * 10 + (c.toNat - 48)) 0

/-- Tail pattern `\s*(-?\d+)`: skip whitespace greedily, then an optional
minus sign followed by at least one digit; the capture is parsed with
`parseInt(_, 10)`. -/
def intTail (s : List Char) : Option Int :=
  let s1 := s.dropWhile isJsSpace
  match s1 with
  | '-' :: r =>
    let d := (takeDigits r).1
    if d.isEmpty then none else some (-(digitsToNat d : Int))
  | r =>
    let d := (takeDigits r).1
    if d.isEmpty then none else some ((digitsToNat d : Int))

/-- Tail pattern `\s*(Yes|No)` under `/i`; the source compares the capture
lower-cased against `"yes"`, so the `Yes` branch yields `true`. -/
def yesNoTail (s : List Char) : Option Bool :=
  let s1 := s.dropWhile isJsSpace
  match matchLitCI "yes".data s1 with
  | some _ => some true
  | none =>
    match matchLitCI "no".data s1 with
    | some _ => some false
    | none => none

/-- Scan for the first position where the literal matches and the tail
pattern completes (JavaScript `String.match` tries every start position
in order). -/
def scanFirst (pat : List Char) (tailF : List Char → Option α) :
    List Char → Option α
  | [] => (matchLitCI pat []).bind tailF
  | c :: cs =>
    match (matchLitCI pat (c :: cs)).bind tailF with
    | some v => some v
    | none => scanFirst pat tailF cs

/-- The four optional fields `parseStatusText` extracts; a field whose
pattern is absent stays `none` (the source simply leaves the key off the
result object). -/
structure StatusFields where
  currentPosition : Option Int := none
  energized : Option Bool := none
  safeStart : Option Bool := none
  errorsStopping : Option Bool := none
deriving DecidableEq, Repr

def posPat : List Char := "Current position:".data
def energizedPat : List Char := "Energized:".data
def safeStartPat : List Char := "Safe start:".data
def errorsPat : List Char := "Errors currently stopping the motor:".data

/-- steppers.js `parseStatusText(text)`. -/
def parseStatusText (text : String) : StatusFields :=
  let t := text.data
  { currentPosition := scanFirst posPat intTail t
    energized := scanFirst energizedPat yesNoTail t
    safeStart := scanFirst safeStartPat yesNoTail t
    errorsStopping := scanFirst errorsPat yesNoTail t }

/-! ## Axis controller (steppers.js lines 31-113, 154-185)

Every `ticcmd` invocation from the claims' code paths is one of the
argument lists below (after `-d <serial>`).  The subprocess is an
oracle: for each command it either rejects with its diagnostic message
(`err` branch of `runTic`) or resolves with its stdout text. -/

inductive TicCmd where
  | statusFull                  -- ["--status", "--full"]
  | exitSafeStartPos (p : Int)  -- ["--exit-safe-start", "--position", p]
  | energize                    -- ["--energize"]
  | deenergize                  -- ["--deenergize"]
  | haltAndHold                 -- ["--halt-and-hold"]
  | haltAndSetZero              -- ["--halt-and-set-position", "0"]
deriving DecidableEq, Repr

abbrev TicExec := TicCmd → Except String String

/-- Per-axis configuration (`AXES[axis]`); the serial may be absent. -/
structure AxisCfg where
  serial : Option String
  stepsPerTick : Nat
deriving DecidableEq, Repr

/-- The `payload` built by `readStatus` (the wall-clock `ts` field is
omitted). -/
structure StatusPayload where
  okFlag : Bool
  fields : StatusFields
  raw : String
deriving DecidableEq, Repr

/-- Per-axis runtime state (`state[axis]`, steppers.js lines 19-22). -/
structure AxisState where
  targetPos : Option Int := none
  enabled : Bool := false
  lastError : Option String := none
  lastStatus : Option StatusPayload := none
deriving DecidableEq, Repr

/-- Result of one async axis operation: the settled value or rejection
message, the axis state after it, and the subprocess commands it issued,
in order. -/
structure OpResult (α : Type) where
  res : Except String α
  st : AxisState
  log : List TicCmd
deriving Repr

/-- `needSerial(axis)` (steppers.js lines 31-35): missing serial is a
configuration error thrown before any subprocess command. -/
def needSerial (cfg : AxisCfg) : Except String String :=
  match cfg.serial with
  | some s => Except.ok s
  | none => Except.error "Missing serial. Set TIC_*_SERIAL in backend/.env"

/-- `readStatus(axis)` (steppers.js lines 68-82): run
`--status --full`, parse the text, cache and return the payload.  On
subprocess failure nothing is cached. -/
def readStatus (exec : TicExec) (cfg : AxisCfg) (st : AxisState) :
    OpResult StatusPayload :=
  match needSerial cfg with
  | Except.error e => ⟨Except.error e, st, []⟩
  | Except.ok _ =>
    match exec TicCmd.statusFull with
    | Except.error e => ⟨Except.error e, st, [TicCmd.statusFull]⟩
    | Except.ok stdout =>
      let payload : StatusPayload :=
        { okFlag := true, fields := parseStatusText stdout, raw := stdout }
      ⟨Except.ok payload, { st with lastStatus := some payload },
        [TicCmd.statusFull]⟩

/-- `ensureTargetPos(axis)` (steppers.js lines 84-90): return the cached
target if initialized, else seed it from a status read (defaulting to 0
when the position is unreported). -/
def ensureTargetPos (exec : TicExec) (cfg : AxisCfg) (st : AxisState) :
    OpResult Int :=
  match st.targetPos with
  | some t => ⟨Except.ok t, st, []⟩
  | none =>
    let r := readStatus exec cfg st
    match r.res with
    | Except.error e => ⟨Except.error e, r.st, r.log⟩
    | Except.ok p =>
      let cur := p.fields.currentPosition.getD 0
      ⟨Except.ok cur, { r.st with targetPos := some cur }, r.log⟩

/-- `setTargetPosition(axis, position)` (steppers.js lines 92-98): issue
`--exit-safe-start --position p`; only after the command resolves is the
cached target updated. -/
def setTargetPosition (exec : TicExec) (cfg : AxisCfg) (st : AxisState)
    (position : Int) : OpResult Int :=
  match needSerial cfg with
  | Except.error e => ⟨Except.error e, st, []⟩
  | Except.ok _ =>
    match exec (TicCmd.exitSafeStartPos position) with
    | Except.error e => ⟨Except.error e, st, [TicCmd.exitSafeStartPos position]⟩
    | Except.ok _ =>
      ⟨Except.ok position, { st with targetPos := some position },
        [TicCmd.exitSafeStartPos position]⟩

/-- `halt(axis)` (steppers.js lines 100-113): try `--halt-and-hold`; on
rejection fall back to a status read and a hold
(`--exit-safe-start --position cur`) at the reported current position
(0 when unreported).  The fallback's own failure is what propagates. -/
def halt (exec : TicExec) (cfg : AxisCfg) (st : AxisState) : OpResult Unit :=
  match needSerial cfg with
  | Except.error e => ⟨Except.error e, st, []⟩
  | Except.ok _ =>
    match exec TicCmd.haltAndHold with
    | Except.ok _ => ⟨Except.ok (), st, [TicCmd.haltAndHold]⟩
    | Except.error _ =>
      let r := readStatus exec cfg st
      match r.res with
      | Except.error e2 => ⟨Except.error e2, r.st, TicCmd.haltAndHold :: r.log⟩
      | Except.ok p =>
        let cur := p.fields.currentPosition.getD 0
        match exec (TicCmd.exitSafeStartPos cur) with
        | Except.error e3 =>
          ⟨Except.error e3, r.st,
            TicCmd.haltAndHold :: r.log ++ [TicCmd.exitSafeStartPos cur]⟩
        | Except.ok _ =>
          ⟨Except.ok (), { r.st with targetPos := some cur },
            TicCmd.haltAndHold :: r.log ++ [TicCmd.exitSafeStartPos cur]⟩

/-- `disable(axis)` (steppers.js lines 154-164): `try { halt } catch {}`,
then `--deenergize`, then `enabled = false`, then a final status read. -/
def disable (exec : TicExec) (cfg : AxisCfg) (st : AxisState) :
    OpResult StatusPayload :=
  match needSerial cfg with
  | Except.error e => ⟨Except.error e, st, []⟩
  | Except.ok _ =>
    let h := halt exec cfg st
    match exec TicCmd.deenergize with
    | Except.error e => ⟨Except.error e, h.st, h.log ++ [TicCmd.deenergize]⟩
    | Except.ok _ =>
      let st2 : AxisState := { h.st with enabled := false }
      let r := readStatus exec cfg st2
      ⟨r.res, r.st, h.log ++ [TicCmd.deenergize] ++ r.log⟩

/-- The object `jog` resolves with (`{ok, axis, targetPos, step, ts}`;
`ts` omitted). -/
structure JogOut where
  targetPos : Int
  step : Int
deriving DecidableEq, Repr

/-- `Math.sign(Number(dir || 0))`: an omitted (or zero) direction is 0;
otherwise its sign. -/
def jogDir (dir : Option Int) : Int := Int.sign (dir.getD 0)

/-- `Math.max(0, Math.min(1, Number(speed01 ?? 0.3)))`. -/
def jogSpeed (speed01 : Option ℚ) : ℚ := max 0 (min 1 (speed01.getD (3 / 10)))

/-- `Math.max(1, Math.round(AXES[axis].stepsPerTick * sp))`; `Math.round`
is round-half-up, i.e. Mathlib's `round`. -/
def jogStep (cfg : AxisCfg) (speed01 : Option ℚ) : Int :=
  max 1 (round ((cfg.stepsPerTick : ℚ) * jogSpeed speed01))

/-- `jog({axis, dir, speed01})` (steppers.js lines 167-185).  `dir` is
reduced to its sign, `speed01` clamped to `[0,1]` (defaulting to 0.3),
and if the axis is enabled the target moves by
`dir * max(1, round(stepsPerTick * speed01))`.  The source's rejection
message interpolates the axis name (`` `${axis} not enabled. ...` ``);
the embedding keeps the fixed part of the message. -/
def jog (exec : TicExec) (cfg : AxisCfg) (st : AxisState)
    (dir : Option Int) (speed01 : Option ℚ) : OpResult JogOut :=
  let d := jogDir dir
  if st.enabled then
    let e := ensureTargetPos exec cfg st
    match e.res with
    | Except.error err => ⟨Except.error err, e.st, e.log⟩
    | Except.ok curTarget =>
      let step : Int := jogStep cfg speed01
      let next := curTarget + d * step
      let s := setTargetPosition exec cfg e.st next
      match s.res with
      | Except.error err => ⟨Except.error err, s.st, e.log ++ s.log⟩
      | Except.ok _ => ⟨Except.ok ⟨next, step⟩, s.st, e.log ++ s.log⟩
  else
    ⟨Except.error "not enabled. Click Enable first.", st, []⟩

/-! ## Solenoid daemon client (imu.js `Solenoids`, lines 81-198)

The pending-request table `this.pending` is a JavaScript `Map` from
correlation id to resolver callback; we model it as an association list
with the `Map` lookup/delete semantics, and a resolver by an opaque
token (a `Nat`) so that "the callback was invoked" is observable as
"which token the handler returned". -/

/-- An inbound `{type:"resp", ...}` daemon message (imu.js line 153ff). -/
structure RespMsg where
  id : String
  ok : Bool
  error : Option String := none
  activeLow : Option Bool := none
  pins : Option (List Nat) := none
  levels : Option (List Nat) := none
deriving DecidableEq, Repr

/-- The `lastStatus` cache shape (imu.js lines 91, 137-143, 161-167). -/
structure SolStatus where
  ready : Bool
  activeLow : Option Bool := none
  pins : Option (List Nat) := none
  levels : Option (List Nat) := none
  lastError : Option String := none
deriving DecidableEq, Repr

/-- The parts of a `Solenoids` instance the resp/timeout logic touches. -/
structure SolState where
  pending : List (String × Nat)
  ready : Bool
  lastStatus : SolStatus
deriving DecidableEq, Repr

/-- `this.pending.get(id)`. -/
def lookupPending (m : List (String × Nat)) (id : String) : Option Nat :=
  (m.find? (fun p => p.1 = id)).map (fun p => p.2)

/-- `this.pending.delete(id)` (a `Map` holds at most one entry per key;
on an association list we drop every entry with that key). -/
def deletePending (m : List (String × Nat)) (id : String) :
    List (String × Nat) :=
  m.filter (fun p => p.1 ≠ id)

/-- The `msg.type === "resp"` branch of `#onStdout` (imu.js lines
153-169): look the correlation id up in the pending table; when found,
remove the entry and invoke its resolver (the returned token); found or
not, if the message carries `levels` data, rebuild `lastStatus` from it
(with `lastError` set from `msg.error` exactly when `msg.ok` is false). -/
def handleResp (s : SolState) (msg : RespMsg) : Option Nat × SolState :=
  let fired := lookupPending s.pending msg.id
  let pending2 :=
    match fired with
    | some _ => deletePending s.pending msg.id
    | none => s.pending
  let status2 :=
    match msg.levels with
    | some lv =>
      { ready := s.ready, activeLow := msg.activeLow, pins := msg.pins,
        levels := some lv,
        lastError := if msg.ok then none else msg.error : SolStatus }
    | none => s.lastStatus
  (fired, { s with pending := pending2, lastStatus := status2 })

/-- The timeout body inside `#send` (imu.js lines 184-187): when the
timer fires, the pending entry is deleted and the caller is rejected
with a timeout error; nothing else of the client state is touched. -/
def handleTimeout (s : SolState) (id : String) : SolState :=
  { s with pending := deletePending s.pending id }

/-- Registering a pending entry inside `#send` (imu.js line 189):
`this.pending.set(id, resolver)` — a `Map.set` replaces any existing
entry under the same key. -/
def registerPending (s : SolState) (id : String) (resolver : Nat) :
    SolState :=
  { s with pending := deletePending s.pending id ++ [(id, resolver)] }

/-! ## Concrete instances used by witnesses -/

/-- A subprocess oracle that accepts every command. -/
def execAllOk : TicExec := fun _ => Except.ok ""

/-- A subprocess oracle for the `disable`/`halt` failure scenarios:
`--deenergize` succeeds, everything else (in particular `--halt-and-hold`
and the fallback `--status --full`) is rejected. -/
def execHaltBroken : TicExec := fun c =>
  match c with
  | TicCmd.deenergize => Except.ok ""
  | TicCmd.statusFull => Except.error "status failed"
  | _ => Except.error "primary failed"

/-- Example per-axis configuration: the yaw axis with its default
`stepsPerTick` of 250. -/
def cfgYaw : AxisCfg := { serial := some "00123456", stepsPerTick := 250 }

/-- An enabled axis whose cached target position is 1000. -/
def stEnabled1000 : AxisState := { targetPos := some 1000, enabled := true }

/-- A disabled axis with a cached target position. -/
def stDisabled77 : AxisState := { targetPos := some 77, enabled := false }

/-- Example status text for the parser: position and energized patterns
present, safe-start and errors-stopping patterns absent. -/
def exStatusText : String :=
  "Current position: -42\nEnergized: No\nVIN voltage: 11958 mV"

/-- A daemon `resp` message carrying level data and a failure flag. -/
def exRespMsg : RespMsg :=
  { id := "a1ffc0", ok := false, error := some "gpio busy",
    activeLow := some true, pins := some [17, 27], levels := some [1, 0] }

/-- A solenoid-client state with one pending entry whose correlation id
matches `exRespMsg` and one unrelated later entry. -/
def exSolState : SolState :=
  { pending := [("a1ffc0", 7), ("b2ee11", 9)], ready := true,
    lastStatus := { ready := true } }

/-! ## Helper lemmas (shared) -/

theorem readStatus_enabled (exec : TicExec) (cfg : AxisCfg) (st : AxisState) :
    (readStatus exec cfg st).st.enabled = st.enabled := by
  unfold readStatus
  cases hs : needSerial cfg with
  | error e => rfl
  | ok s =>
    cases he : exec TicCmd.statusFull with
    | error e => rfl
    | ok stdout => rfl

theorem lookupPending_deletePending (m : List (String × Nat)) (id : String) :
    lookupPending (deletePending m id) id = none := by
  induction m with
  | nil => rfl
  | cons p m ih =>
    by_cases h : p.1 = id
    · simpa [deletePending, h] using ih
    · simp only [deletePending, lookupPending, List.filter, h] at ih ⊢
      simp [List.find?, h]

/-- What `jog` does on an enabled axis with an initialized target when the
positioning command is accepted: the full result, state and command log. -/
theorem jog_enabled_spec (exec : TicExec) (cfg : AxisCfg) (st : AxisState)
    (dir : Option Int) (sp : Option ℚ) (s : String) (t : Int) (o : String)
    (hser : cfg.serial = some s) (hen : st.enabled = true)
    (ht : st.targetPos = some t)
    (hex : exec (TicCmd.exitSafeStartPos (t + jogDir dir * jogStep cfg sp))
      = Except.ok o) :
    jog exec cfg st dir sp =
      ⟨Except.ok ⟨t + jogDir dir * jogStep cfg sp, jogStep cfg sp⟩,
        { st with targetPos := some (t + jogDir dir * jogStep cfg sp) },
        [TicCmd.exitSafeStartPos (t + jogDir dir * jogStep cfg sp)]⟩ := by
  simp [jog, ensureTargetPos, setTargetPosition, needSerial, hen, ht, hser, hex]

/-! ## Claim theorems -/

/-- Claim C1: for every resource key, units of work submitted through the
serialized command queue (`withLock`'s promise chain, built with
`.then(fn, fn)`) execute strictly in submission order, sequentially (at
most one in flight, since each unit is chained onto the previous tail
promise and runs only once it settles), and a unit that fails does not
prevent any subsequently queued unit for the same key from running:
whatever each unit's outcome, the execution trace is exactly the
submission list. -/
theorem C1_lock_chain_order (lock : Settled) (ws : List WorkUnit) :
    runLockChain lock ws = ws.map WorkUnit.wid := by
  induction ws generalizing lock with
  | nil => rfl
  | cons w ws ih => cases lock <;> simp [runLockChain, thenBoth, ih]

/-- Claim C2: on an enabled axis with an initialized target, `jog` reduces
`dir` to its sign and clamps `speed01` to `[0,1]` (`jogDir`/`jogSpeed`),
computes `step = max(1, round(stepsPerTick * speed01))` (`jogStep`), which
is never below 1, issues exactly one `setTargetPosition` subprocess
command at `target + dir * step`, caches the new target, and resolves
with the new target and the step used. -/
theorem C2_jog_formula (exec : TicExec) (cfg : AxisCfg) (st : AxisState)
    (dir : Option Int) (sp : Option ℚ) (s : String) (t : Int) (o : String)
    (hser : cfg.serial = some s) (hen : st.enabled = true)
    (ht : st.targetPos = some t)
    (hex : exec (TicCmd.exitSafeStartPos (t + jogDir dir * jogStep cfg sp))
      = Except.ok o) :
    (jog exec cfg st dir sp).res
        = Except.ok ⟨t + jogDir dir * jogStep cfg sp, jogStep cfg sp⟩ ∧
    (jog exec cfg st dir sp).log
        = [TicCmd.exitSafeStartPos (t + jogDir dir * jogStep cfg sp)] ∧
    (jog exec cfg st dir sp).st.targetPos
        = some (t + jogDir dir * jogStep cfg sp) ∧
    1 ≤ jogStep cfg sp := by
  rw [jog_enabled_spec exec cfg st dir sp s t o hser hen ht hex]
  exact ⟨rfl, rfl, rfl, le_max_left 1 _⟩

/-- Claim C2 witness: with `stepsPerTick = 250`, current target 1000 and
`speed01 = 0.5`, `dir = 1` gives step 125 and new target 1125, and
`dir = -1` gives new target 875. -/
theorem C2_jog_formula_witness :
    (jog execAllOk cfgYaw stEnabled1000 (some 1) (some (1 / 2))).res
        = Except.ok ⟨1125, 125⟩ ∧
    (jog execAllOk cfgYaw stEnabled1000 (some (-1)) (some (1 / 2))).res
        = Except.ok ⟨875, 125⟩ := by
  have hstep : jogStep cfgYaw (some (1 / 2)) = 125 := by
    norm_num [jogStep, jogSpeed, cfgYaw, round_eq]
  have h1 := C2_jog_formula execAllOk cfgYaw stEnabled1000 (some 1)
    (some (1 / 2)) "00123456" 1000 "" rfl rfl rfl rfl
  have h2 := C2_jog_formula execAllOk cfgYaw stEnabled1000 (some (-1))
    (some (1 / 2)) "00123456" 1000 "" rfl rfl rfl rfl
  rw [hstep] at h1 h2
  refine ⟨?_, ?_⟩
  · simpa [jogDir] using h1.1
  · simpa [jogDir] using h2.1

/-- Claim C6: `jog` on a non-enabled axis rejects with the
configuration-class "not enabled" error, issues no subprocess command,
and leaves the axis state (in particular the cached target) unchanged. -/
theorem C6_jog_disabled (exec : TicExec) (cfg : AxisCfg) (st : AxisState)
    (dir : Option Int) (sp : Option ℚ) (hen : st.enabled = false) :
    jog exec cfg st dir sp
      = ⟨Except.error "not enabled. Click Enable first.", st, []⟩ := by
  simp [jog, hen]

/-- Claim C6 witness: jogging the disabled axis with cached target 77
rejects, issues nothing, and leaves the state intact. -/
theorem C6_jog_disabled_witness :
    jog execAllOk cfgYaw stDisabled77 (some 1) (some (1 / 2))
      = ⟨Except.error "not enabled. Click Enable first.", stDisabled77, []⟩ :=
  C6_jog_disabled execAllOk cfgYaw stDisabled77 (some 1) (some (1 / 2)) rfl

/-- Claim C7: `setTargetPosition p` either succeeds and only then updates
the cached target to `p`, or fails (missing serial or rejected
subprocess command) and leaves the axis state — in particular the cached
target — exactly as it was; the cache is never updated before the
command is accepted. -/
theorem C7_set_target_state (exec : TicExec) (cfg : AxisCfg) (st : AxisState)
    (p : Int) :
    ((setTargetPosition exec cfg st p).res = Except.ok p ∧
      (setTargetPosition exec cfg st p).st = { st with targetPos := some p }) ∨
    ((∃ e, (setTargetPosition exec cfg st p).res = Except.error e) ∧
      (setTargetPosition exec cfg st p).st = st) := by
  unfold setTargetPosition needSerial
  cases hser : cfg.serial with
  | none => exact Or.inr ⟨⟨_, rfl⟩, rfl⟩
  | some s =>
    cases hex : exec (TicCmd.exitSafeStartPos p) with
    | error e => exact Or.inr ⟨⟨e, rfl⟩, rfl⟩
    | ok o => exact Or.inl ⟨rfl, rfl⟩

/-- Claim C10: on an enabled axis with initialized target `t`, `jog` with
`dir` omitted or `dir = 0` still issues exactly one
exit-safe-start/absolute-position command, commanding the unchanged
target `t`, and resolves with that unchanged target and a step of at
least 1. -/
theorem C10_jog_zero_dir (exec : TicExec) (cfg : AxisCfg) (st : AxisState)
    (sp : Option ℚ) (s : String) (t : Int) (o : String)
    (hser : cfg.serial = some s) (hen : st.enabled = true)
    (ht : st.targetPos = some t)
    (hex : exec (TicCmd.exitSafeStartPos t) = Except.ok o) :
    (jog exec cfg st none sp).log = [TicCmd.exitSafeStartPos t] ∧
    (jog exec cfg st none sp).res = Except.ok ⟨t, jogStep cfg sp⟩ ∧
    (jog exec cfg st (some 0) sp).log = [TicCmd.exitSafeStartPos t] ∧
    (jog exec cfg st (some 0) sp).res = Except.ok ⟨t, jogStep cfg sp⟩ ∧
    1 ≤ jogStep cfg sp := by
  have hdn : jogDir none = 0 := rfl
  have hd0 : jogDir (some 0) = 0 := rfl
  have hexn : exec (TicCmd.exitSafeStartPos (t + jogDir none * jogStep cfg sp))
      = Except.ok o := by
    rw [hdn]; simpa using hex
  have hex0 :
      exec (TicCmd.exitSafeStartPos (t + jogDir (some 0) * jogStep cfg sp))
      = Except.ok o := by
    rw [hd0]; simpa using hex
  have h1 := jog_enabled_spec exec cfg st none sp s t o hser hen ht hexn
  have h2 := jog_enabled_spec exec cfg st (some 0) sp s t o hser hen ht hex0
  rw [hdn] at h1
  rw [hd0] at h2
  simp only [zero_mul, add_zero] at h1 h2
  rw [h1, h2]
  exact ⟨rfl, rfl, rfl, rfl, le_max_left 1 _⟩

/-- Claim C10 witness: on the enabled axis with target 1000, a jog with
`dir` omitted (and again with `dir = 0`) commands position 1000 and
returns target 1000 with a positive step. -/
theorem C10_jog_zero_dir_witness :
    (jog execAllOk cfgYaw stEnabled1000 none (some (1 / 2))).log
        = [TicCmd.exitSafeStartPos 1000] ∧
    (jog execAllOk cfgYaw stEnabled1000 (some 0) (some (1 / 2))).res
        = Except.ok ⟨1000, 125⟩ := by
  have h := C10_jog_zero_dir execAllOk cfgYaw stEnabled1000 (some (1 / 2))
    "00123456" 1000 "" rfl rfl rfl rfl
  have hstep : jogStep cfgYaw (some (1 / 2)) = 125 := by
    norm_num [jogStep, jogSpeed, cfgYaw, round_eq]
  refine ⟨h.1, ?_⟩
  rw [h.2.2.2.1, hstep]

/-- Claim C9: parsing a status text containing "Current position: -42"
and "Energized: No" but no safe-start or errors-stopping pattern yields
`currentPosition = -42` and `energized = false` with the other two
fields absent; and in general each of the four fields is omitted (never
an error — the parser is total by construction) whenever its pattern is
absent from the text. -/
theorem C9_parse_status (t : String) :
    parseStatusText exStatusText =
      { currentPosition := some (-42), energized := some false,
        safeStart := none, errorsStopping := none } ∧
    (scanFirst posPat intTail t.data = none →
      (parseStatusText t).currentPosition = none) ∧
    (scanFirst energizedPat yesNoTail t.data = none →
      (parseStatusText t).energized = none) ∧
    (scanFirst safeStartPat yesNoTail t.data = none →
      (parseStatusText t).safeStart = none) ∧
    (scanFirst errorsPat yesNoTail t.data = none →
      (parseStatusText t).errorsStopping = none) := by
  refine ⟨by rfl, fun h => ?_, fun h => ?_, fun h => ?_, fun h => ?_⟩ <;>
    simp [parseStatusText, h]

/-- Claim C9 witness: on the example text itself, the safe-start and
errors-stopping patterns are absent and the parsed fields come out
`none`. -/
theorem C9_parse_status_witness :
    (parseStatusText exStatusText).safeStart = none ∧
    (parseStatusText exStatusText).errorsStopping = none :=
  ⟨(C9_parse_status exStatusText).2.2.2.1 rfl,
   (C9_parse_status exStatusText).2.2.2.2 rfl⟩

/-- Claim C3: once a daemon command's timeout has fired (deleting its
pending entry), a response that later arrives carrying that correlation
id invokes no resolver (no observable callback, no error — it is
silently dropped) and leaves every remaining pending entry untouched, so
it cannot resolve a different later pending call.  (The model keys the
pending table like the JavaScript `Map`; `makeId`'s randomness-plus-
timestamp ids are taken as distinct while pending.) -/
theorem C3_timeout_drops_response (s : SolState) (msg : RespMsg) :
    (handleResp (handleTimeout s msg.id) msg).1 = none ∧
    (handleResp (handleTimeout s msg.id) msg).2.pending
      = (handleTimeout s msg.id).pending := by
  constructor
  · simp [handleResp, handleTimeout, lookupPending_deletePending]
  · simp [handleResp, handleTimeout, lookupPending_deletePending]

/-- Claim C8: the `resp` branch of the daemon client's stdout handler
resolves and removes exactly the pending entry matching the correlation
id when one exists, does nothing to the pending table otherwise, and —
found or not — rebuilds the cached status snapshot from the response's
level data whenever the response carries any (with `lastError` taken
from the response exactly when `ok` is false), leaving the cache alone
otherwise. -/
theorem C8_resp_dispatch (s : SolState) (msg : RespMsg) :
    (∀ r, lookupPending s.pending msg.id = some r →
      (handleResp s msg).1 = some r ∧
      (handleResp s msg).2.pending = deletePending s.pending msg.id) ∧
    (lookupPending s.pending msg.id = none →
      (handleResp s msg).1 = none ∧
      (handleResp s msg).2.pending = s.pending) ∧
    (∀ lv, msg.levels = some lv →
      (handleResp s msg).2.lastStatus =
        { ready := s.ready, activeLow := msg.activeLow, pins := msg.pins,
          levels := some lv,
          lastError := if msg.ok then none else msg.error }) ∧
    (msg.levels = none → (handleResp s msg).2.lastStatus = s.lastStatus) := by
  refine ⟨fun r hr => ?_, fun hn => ?_, fun lv hl => ?_, fun hn => ?_⟩ <;>
    simp [handleResp, *]

/-- Claim C8 witness: a failed response with levels data whose id matches
the first of two pending entries fires resolver 7, leaves only the other
entry pending, and refreshes the status cache with the carried levels
and error. -/
theorem C8_resp_dispatch_witness :
    (handleResp exSolState exRespMsg).1 = some 7 ∧
    (handleResp exSolState exRespMsg).2.pending = [("b2ee11", 9)] ∧
    (handleResp exSolState exRespMsg).2.lastStatus =
      { ready := true, activeLow := some true, pins := some [17, 27],
        levels := some [1, 0], lastError := some "gpio busy" } := by
  have h := C8_resp_dispatch exSolState exRespMsg
  have h1 := h.1 7 (by rfl)
  have h3 := h.2.2.1 [1, 0] (by rfl)
  refine ⟨h1.1, ?_, ?_⟩
  · rw [h1.2]; rfl
  · rw [h3]; rfl

/-- Claim C4: on a configured axis, `disable` always issues the
`--deenergize` command — the preceding halt attempt is wrapped in a
swallowing catch, so however halt fails it never blocks de-energizing —
and once the de-energize command is accepted the axis's `enabled` flag
is false (the final status read never touches it). -/
theorem C4_disable_deenergizes (exec : TicExec) (cfg : AxisCfg)
    (st : AxisState) (s : String) (hser : cfg.serial = some s) :
    TicCmd.deenergize ∈ (disable exec cfg st).log ∧
    (∀ o, exec TicCmd.deenergize = Except.ok o →
      (disable exec cfg st).st.enabled = false) := by
  cases hde : exec TicCmd.deenergize with
  | error e =>
    refine ⟨?_, fun o ho => ?_⟩
    · simp [disable, needSerial, hser, hde]
    · exact absurd ho (by simp)
  | ok o1 =>
    refine ⟨?_, fun o ho => ?_⟩
    · simp [disable, needSerial, hser, hde]
    · simp [disable, needSerial, hser, hde, readStatus_enabled]

/-- Claim C4 witness: with a fake subprocess on which the halt attempt
(and even its fallback status read) fails but `--deenergize` succeeds,
`disable` still issues `--deenergize` and ends with `enabled = false`. -/
theorem C4_disable_deenergizes_witness :
    TicCmd.deenergize ∈ (disable execHaltBroken cfgYaw stEnabled1000).log ∧
    (disable execHaltBroken cfgYaw stEnabled1000).st.enabled = false := by
  have h := C4_disable_deenergizes execHaltBroken cfgYaw stEnabled1000
    "00123456" rfl
  exact ⟨h.1, h.2 "" rfl⟩

/-- Claim C5: when `halt`'s primary `--halt-and-hold` command is
rejected, `halt` falls back to a `--status --full` read; if that read is
also rejected, `halt` fails with the fallback read's error, not the
primary's, having issued only the primary and the status commands; if
the read succeeds, `halt` goes on to command a hold
(`--exit-safe-start --position`) at the position the read reported. -/
theorem C5_halt_fallback (exec : TicExec) (cfg : AxisCfg) (st : AxisState)
    (s : String) (e1 : String) (hser : cfg.serial = some s)
    (hh : exec TicCmd.haltAndHold = Except.error e1) :
    (∀ e2, exec TicCmd.statusFull = Except.error e2 →
      (halt exec cfg st).res = Except.error e2 ∧
      (halt exec cfg st).log = [TicCmd.haltAndHold, TicCmd.statusFull]) ∧
    (∀ txt, exec TicCmd.statusFull = Except.ok txt →
      (halt exec cfg st).log
        = [TicCmd.haltAndHold, TicCmd.statusFull,
            TicCmd.exitSafeStartPos
              ((parseStatusText txt).currentPosition.getD 0)]) := by
  refine ⟨fun e2 h2 => ?_, fun txt htxt => ?_⟩
  · constructor <;> simp [halt, readStatus, needSerial, hser, hh, h2]
  · cases hc : exec (TicCmd.exitSafeStartPos
        ((parseStatusText txt).currentPosition.getD 0)) with
    | error e3 => simp [halt, readStatus, needSerial, hser, hh, htxt, hc]
    | ok o => simp [halt, readStatus, needSerial, hser, hh, htxt, hc]

/-- Claim C5 witness: with the primary halt rejected as "primary failed"
and the fallback status read rejected as "status failed", `halt` fails
with "status failed" — the fallback's error — after issuing exactly the
primary and the status-read commands. -/
theorem C5_halt_fallback_witness :
    (halt execHaltBroken cfgYaw stDisabled77).res
        = Except.error "status failed" ∧
    (halt execHaltBroken cfgYaw stDisabled77).log
        = [TicCmd.haltAndHold, TicCmd.statusFull] :=
  (C5_halt_fallback execHaltBroken cfgYaw stDisabled77 "00123456"
    "primary failed" rfl rfl).1 "status failed" rfl

end Ember
